import Mathlib

/-
Verification of the error-normalization and dispatch layer of the
saleor-storefront API client (src/index.ts).

The embedding models a GraphQL raw result as a possibly-null payload whose
direct child fields are possibly-null nodes; each node may carry an embedded
domain-error list (the mutation-payload errors field) and a token field
(used by the sign-in mutation payload tokenCreate).

JavaScript truthiness is modelled explicitly where the source relies on it:
an absent value (undefined/null) is Option.none and is falsy; any array,
including the empty array, is truthy; any object is truthy.

The helper functions getErrorsFromData, isDataEmpty, getMappedData and the
token-store writer setAuthToken are imported by src/index.ts from
./utils and ./auth, which are part of the repository but not present under
src/; they are modelled from the spec (each such definition says so in its
doc comment).
-/

set_option autoImplicit false

/-- A domain error embedded inside a mutation payload: field and message,
both nullable (generated type UpdateCheckoutShippingAddress_..._errors). -/
structure DomainError where
  field : Option String
  message : Option String
deriving DecidableEq

/-- A transport-level error entry (GraphQLError); only the message is
relevant to the normalizer, which never inspects entries. -/
structure GraphQLError where
  message : String
deriving DecidableEq

/-- A direct child node of the root data payload: the mutation-payload
wrapper object. It may carry an embedded domain-error list (the errors
field present on every mutation payload type) and a token (tokenCreate). -/
structure Node where
  errors : Option (List DomainError)
  token : Option String
deriving DecidableEq

/-- One direct child field of the root data payload: a field name and a
possibly-null node value. -/
structure Child where
  name : String
  value : Option Node
deriving DecidableEq

/-- The raw data payload: null, or an object given by its direct child
fields. -/
abbrev Data := Option (List Child)

/-- The unified error (ApolloError in the source): extraInfo carries the
embedded domain errors when found (null otherwise), graphQLErrors carries
the transport errors exactly as passed in. -/
structure ApolloError where
  extraInfo : Option (List DomainError)
  graphQLErrors : Option (List GraphQLError)
deriving DecidableEq

/-- The raw result handed to the normalizer: the data payload plus the
optional transport-error list (absent, or a possibly-empty array). -/
structure RawResult where
  data : Data
  errors : Option (List GraphQLError)
deriving DecidableEq

/-- The normalizer outcome: either an errors object or a data object,
never both (the source returns either the object-literal form with only
the errors key or the form with only the data key). -/
inductive HandledData (T : Type) where
  | errors (e : ApolloError)
  | data (d : T)
deriving DecidableEq

/-- One step of the scan for embedded domain errors: a child whose value
is a node carrying a non-empty errors list replaces the accumulator. -/
def findChildErrors (acc : Option (List DomainError)) (c : Child) :
    Option (List DomainError) :=
  match c.value with
  | some node =>
      match node.errors with
      | some es => if es.isEmpty then acc else some es
      | none => acc
  | none => acc

/-- Modelled from the spec: getErrorsFromData (imported by src/index.ts
from ./utils, not under src/). Scans the direct child wrapper fields of
the payload for a non-empty embedded domain-error list and returns it;
returns null when the payload is null or no non-empty list is found. -/
def getErrorsFromData (data : Data) : Option (List DomainError) :=
  match data with
  | none => none
  | some children => children.foldl findChildErrors none

/-- Modelled from the spec: isDataEmpty (imported by src/index.ts from
./utils, not under src/). The payload is empty when the root data value
is null, or all of its direct child fields resolve to null. -/
def isDataEmpty (data : Data) : Bool :=
  match data with
  | none => true
  | some children => children.all (fun c => c.value.isNone)

/-- Modelled from the spec: getMappedData (imported by src/index.ts from
./utils, not under src/). Applies the caller-supplied projection to the
raw payload; in this total embedding the null guard the spec requires is
the projection handling the none payload itself. -/
def getMappedData {T : Type} (mapFn : Data → T) (data : Data) : T :=
  mapFn data

/-- The unified-error construction inside handleDataErrors
(src/index.ts lines 253-261): the JavaScript condition
apolloErrors || userInputErrors is truthy exactly when the transport-error
argument is present (even as an empty array) or a non-empty domain-error
list was found; the constructed ApolloError carries
extraInfo = userInputErrors and graphQLErrors = apolloErrors. -/
def unifiedError (data : Data) (apolloErrors : Option (List GraphQLError)) :
    Option ApolloError :=
  if apolloErrors.isSome || (getErrorsFromData data).isSome then
    some ⟨getErrorsFromData data, apolloErrors⟩
  else
    none

/-- handleDataErrors (src/index.ts lines 248-270): build the unified error
from the transport errors and the embedded domain errors; if one was built
and the payload is empty, return the errors outcome; otherwise return the
data outcome carrying the projected payload. -/
def handleDataErrors {T : Type} (mapFn : Data → T) (data : Data)
    (apolloErrors : Option (List GraphQLError)) : HandledData T :=
  match unifiedError data apolloErrors with
  | some e =>
      if isDataEmpty data then HandledData.errors e
      else HandledData.data (getMappedData mapFn data)
  | none => HandledData.data (getMappedData mapFn data)

/-- A promise rejection reason in this layer: either an exception thrown
while awaiting the factory (forwarded unchanged), or the unified error. -/
inductive Rejection (E : Type) where
  | thrown (e : E)
  | unified (e : ApolloError)
deriving DecidableEq

/-- One settlement call made by a promise executor. -/
inductive Settle (E A : Type) where
  | reject (e : E)
  | resolve (a : A)
deriving DecidableEq

/-- A promise settles with the first settlement call; later calls are
ignored (JavaScript promise semantics). -/
def settleFirst {E A : Type} : List (Settle E A) → Option (Except E A)
  | [] => none
  | Settle.reject e :: _ => some (Except.error e)
  | Settle.resolve a :: _ => some (Except.ok a)

/-- The settlement calls made by the firePromise executor
(src/index.ts lines 224-244): a throw from the awaited factory rejects
directly; otherwise the normalized outcome is computed, reject is called
when it is an errors outcome, and resolve is called with the data field
read off the outcome (undefined, hence none, on the errors outcome). -/
def firePromiseOps {E T : Type} (mapFn : Data → T)
    (promise : Except E RawResult) : List (Settle (Rejection E) (Option T)) :=
  match promise with
  | Except.error e => [Settle.reject (Rejection.thrown e)]
  | Except.ok r =>
      match handleDataErrors mapFn r.data r.errors with
      | HandledData.errors u =>
          [Settle.reject (Rejection.unified u), Settle.resolve none]
      | HandledData.data d => [Settle.resolve (some d)]

/-- firePromise (src/index.ts lines 224-244): the settled value of the
promise built from the executor above. -/
def firePromise {E T : Type} (mapFn : Data → T) (promise : Except E RawResult) :
    Option (Except (Rejection E) (Option T)) :=
  settleFirst (firePromiseOps mapFn promise)

/-- The sign-in projection used by SaleorAPI.signIn
(src/index.ts: data => data.tokenCreate): field access on the payload,
none when the payload or the tokenCreate field is null or absent. -/
def tokenCreateProj (data : Data) : Option Node :=
  match data with
  | none => none
  | some cs => (cs.find? (fun c => c.name == "tokenCreate")).bind Child.value

/-- Modelled from the spec: setAuthToken (imported by src/index.ts from
./auth, not under src/). The Token Store set operation: replaces the
process-wide token with the given value. -/
def setAuthToken (t : Option String) (_store : Option String) :
    Option String := t

/-- The update hook installed by SaleorAPI.signIn (src/index.ts lines
88-106): normalize the mutation result with the tokenCreate projection;
when the outcome is a data outcome whose value is a (truthy) node, store
the node token via setAuthToken; otherwise leave the store alone. The
platform credential storage and the caller update hook do not touch the
token store and are not modelled. -/
def signInUpdate (store : Option String) (r : RawResult) : Option String :=
  match handleDataErrors tokenCreateProj r.data r.errors with
  | HandledData.errors _ => store
  | HandledData.data d =>
      match d with
      | some node => setAuthToken node.token store
      | none => store

/-- SaleorAPI.signIn (src/index.ts lines 79-117): fire the sign-in
mutation; on a delivered raw result the update hook runs first, then the
firePromise settlement decides the promise; a throw skips the hook. The
outer try/resolve/catch/reject wrapper forwards the inner settlement
unchanged. Returns the token store after the call and the settled
promise. -/
def signIn {E : Type} (store : Option String) (mutation : Except E RawResult) :
    Option String × Option (Except (Rejection E) (Option (Option Node))) :=
  match mutation with
  | Except.error e => (store, firePromise tokenCreateProj (Except.error e))
  | Except.ok r => (signInUpdate store r, firePromise tokenCreateProj (Except.ok r))

/-- One emission on a watched-query subscription: either a raw result on
the value channel or an ApolloError on the error channel of the
observable. -/
inductive Emission where
  | result (r : RawResult)
  | failure (e : ApolloError)
deriving DecidableEq

/-- The callback invocations produced by the subscription handler, in
order: the arguments passed to onUpdate, the errors passed to onError,
and the number of onComplete calls. -/
structure CallbackCalls where
  updates : List (Option Node)
  errorsCalled : List ApolloError
  completes : Nat
deriving DecidableEq

/-- Concatenation of callback invocation records, earlier calls first. -/
def CallbackCalls.append (a b : CallbackCalls) : CallbackCalls :=
  ⟨a.updates ++ b.updates, a.errorsCalled ++ b.errorsCalled,
   a.completes + b.completes⟩

/-- The subscription handler of SaleorAPI.watchQuery (src/index.ts lines
158-184) on one emission. onUpdate is required by the options type and is
modelled as always supplied; hoE and hoC say whether the optional onError
and onComplete callbacks were supplied. On a value-channel result the
normalized outcome routes to onError (errors outcome) or to onUpdate
followed by onComplete (data outcome); on the error channel onError is
called with the error. -/
def handleEmission (mapFn : Data → Option Node) (hoE hoC : Bool) :
    Emission → CallbackCalls
  | Emission.result r =>
      match handleDataErrors mapFn r.data r.errors with
      | HandledData.errors e => ⟨[], if hoE then [e] else [], 0⟩
      | HandledData.data d => ⟨[d], [], if hoC then 1 else 0⟩
  | Emission.failure e => ⟨[], if hoE then [e] else [], 0⟩

/-- The callback invocations over a whole subscription lifetime: the
handler runs on each emission in order, with no state carried between
emissions (the source keeps no once-flag of any kind). -/
def subscriptionRun (mapFn : Data → Option Node) (hoE hoC : Bool) :
    List Emission → CallbackCalls
  | [] => ⟨[], [], 0⟩
  | em :: rest =>
      (handleEmission mapFn hoE hoC em).append
        (subscriptionRun mapFn hoE hoC rest)

/-- The refetch closure returned by SaleorAPI.watchQuery (src/index.ts
lines 186-198). When new variables are supplied, setVariables switches
the observable to them, currentResult reads the cache entry for them
(modelled by the cache function, per the external collaborator contract),
the cached data is normalized with no transport errors, and onUpdate is
called synchronously when the outcome has a truthy data value. In every
case the network refetch (modelled by the network function of the
optional variables) is wrapped in firePromise and its settled promise is
returned. -/
def refetch {V E : Type} (mapFn : Data → Option Node) (cache : V → Data)
    (network : Option V → Except E RawResult) (newVars : Option V) :
    List (Option Node) × Option (Except (Rejection E) (Option (Option Node))) :=
  match newVars with
  | some v =>
      (match handleDataErrors mapFn (cache v) none with
       | HandledData.data (some d) => [some d]
       | _ => [],
       firePromise mapFn (network (some v)))
  | none => ([], firePromise mapFn (network none))

/-- Scanning children that are all null finds no embedded errors,
whatever the accumulator. -/
theorem findChildErrors_foldl_all_none :
    ∀ (cs : List Child) (acc : Option (List DomainError)),
      cs.all (fun c => c.value.isNone) = true →
      cs.foldl findChildErrors acc = acc := by
  intro cs
  induction cs with
  | nil => intro acc _; rfl
  | cons c rest ih =>
      intro acc h
      rw [List.all_cons, Bool.and_eq_true] at h
      have hc : c.value = none := Option.isNone_iff_eq_none.mp h.1
      rw [List.foldl_cons]
      have hstep : findChildErrors acc c = acc := by
        rw [findChildErrors, hc]
      rw [hstep]
      exact ih acc h.2

/-- An empty payload carries no embedded domain errors. -/
theorem getErrorsFromData_of_empty (data : Data)
    (h : isDataEmpty data = true) : getErrorsFromData data = none := by
  cases data with
  | none => rfl
  | some cs =>
      have hall : cs.all (fun c => c.value.isNone) = true := by
        simpa [isDataEmpty] using h
      simpa [getErrorsFromData] using
        findChildErrors_foldl_all_none cs none hall

/-- A data outcome of the normalizer always carries the projected
payload. -/
theorem handleDataErrors_data_eq {T : Type} (mapFn : Data → T) (data : Data)
    (apolloErrors : Option (List GraphQLError)) (d : T)
    (h : handleDataErrors mapFn data apolloErrors = HandledData.data d) :
    d = mapFn data := by
  rw [handleDataErrors] at h
  cases hu : unifiedError data apolloErrors with
  | none =>
      rw [hu] at h
      simpa [getMappedData] using h.symm
  | some e =>
      rw [hu] at h
      cases hie : isDataEmpty data with
      | true => rw [hie] at h; simp at h
      | false =>
          rw [hie] at h
          simpa [getMappedData] using h.symm

/-- Claim C1: for every raw result in which the data payload is null or
every direct child field of the payload is null, and in which either the
transport-error list is non-empty or a non-empty embedded domain-error
list is found in the data, handleDataErrors returns the errors outcome
carrying a unified error, and never returns a data outcome. -/
theorem claim_C1_empty_data_errors {T : Type} (mapFn : Data → T)
    (data : Data) (apolloErrors : Option (List GraphQLError))
    (hempty : isDataEmpty data = true)
    (herr : (∃ l, apolloErrors = some l ∧ l ≠ []) ∨
            (getErrorsFromData data).isSome = true) :
    handleDataErrors mapFn data apolloErrors =
      HandledData.errors ⟨getErrorsFromData data, apolloErrors⟩ ∧
    ∀ d, handleDataErrors mapFn data apolloErrors ≠ HandledData.data d := by
  have hcond : (apolloErrors.isSome || (getErrorsFromData data).isSome) = true := by
    rcases herr with ⟨l, hl, _⟩ | h
    · rw [hl]; rfl
    · rw [h]; simp
  have hu : unifiedError data apolloErrors =
      some ⟨getErrorsFromData data, apolloErrors⟩ := by
    rw [unifiedError, if_pos hcond]
  have heq : handleDataErrors mapFn data apolloErrors =
      HandledData.errors ⟨getErrorsFromData data, apolloErrors⟩ := by
    rw [handleDataErrors, hu]
    simp [hempty]
  refine ⟨heq, fun d hd => ?_⟩
  rw [heq] at hd
  exact HandledData.noConfusion hd

/-- Closed instance of claim C1: a null payload with one transport error
yields the errors outcome. -/
theorem claim_C1_witness :
    handleDataErrors tokenCreateProj (none : Data) (some [⟨"boom"⟩]) =
      HandledData.errors ⟨none, some [⟨"boom"⟩]⟩ ∧
    ∀ d, handleDataErrors tokenCreateProj (none : Data) (some [⟨"boom"⟩]) ≠
      HandledData.data d :=
  claim_C1_empty_data_errors tokenCreateProj none (some [⟨"boom"⟩]) rfl
    (Or.inl ⟨[⟨"boom"⟩], rfl, by decide⟩)

/-- Claim C2: for every raw result with no transport errors (the optional
transport-error argument absent) and no embedded domain errors found, the
normalizer returns the data outcome carrying exactly the caller-supplied
projection applied to the raw payload. -/
theorem claim_C2_pass_through {T : Type} (mapFn : Data → T) (data : Data)
    (h : getErrorsFromData data = none) :
    handleDataErrors mapFn data none = HandledData.data (mapFn data) := by
  rw [handleDataErrors, unifiedError, h]
  simp [getMappedData]

/-- Closed instance of claim C2: a clean payload passes straight through
the projection. -/
theorem claim_C2_witness :
    handleDataErrors tokenCreateProj
        (some [⟨"tokenCreate", some ⟨none, some "T1"⟩⟩]) none =
      HandledData.data (some ⟨none, some "T1"⟩) :=
  claim_C2_pass_through tokenCreateProj
    (some [⟨"tokenCreate", some ⟨none, some "T1"⟩⟩]) rfl

/-- Claim C3: for every raw result in which embedded domain errors are
found but the payload is not empty, the normalizer returns the data
outcome carrying only the projected payload — the domain errors are not
part of the data outcome, so a caller inspecting only that outcome does
not see them. -/
theorem claim_C3_partial_success_drops_errors {T : Type} (mapFn : Data → T)
    (data : Data) (apolloErrors : Option (List GraphQLError))
    (hfound : (getErrorsFromData data).isSome = true)
    (hne : isDataEmpty data = false) :
    handleDataErrors mapFn data apolloErrors = HandledData.data (mapFn data) := by
  have hcond : (apolloErrors.isSome || (getErrorsFromData data).isSome) = true := by
    rw [hfound]; simp
  rw [handleDataErrors, unifiedError, if_pos hcond]
  simp [hne, getMappedData]

/-- Closed instance of claim C3: a payload with a non-null child carrying
a non-empty domain-error list still produces the data outcome. -/
theorem claim_C3_witness :
    handleDataErrors tokenCreateProj
        (some [⟨"tokenCreate", some ⟨some [⟨some "password", some "bad"⟩], none⟩⟩])
        none =
      HandledData.data (some ⟨some [⟨some "password", some "bad"⟩], none⟩) :=
  claim_C3_partial_success_drops_errors tokenCreateProj
    (some [⟨"tokenCreate", some ⟨some [⟨some "password", some "bad"⟩], none⟩⟩])
    none rfl rfl

/-- Claim C10: the truthiness test on the transport-error argument is
presence, not non-emptiness: a present-but-empty transport-error list
always constructs a unified error, and when the payload is also empty the
outcome is the errors outcome even though there are zero transport errors
and zero embedded domain errors. -/
theorem claim_C10_empty_array_truthy {T : Type} (mapFn : Data → T)
    (data : Data) (hempty : isDataEmpty data = true) :
    (∀ d2 : Data, (unifiedError d2 (some [])).isSome = true) ∧
    handleDataErrors mapFn data (some []) =
      HandledData.errors ⟨none, some []⟩ ∧
    getErrorsFromData data = none := by
  have hdom := getErrorsFromData_of_empty data hempty
  refine ⟨fun d2 => ?_, ?_, hdom⟩
  · rw [unifiedError]
    simp
  · rw [handleDataErrors, unifiedError, hdom]
    simp [hempty]

/-- Closed instance of claim C10: a null payload with an empty
transport-error array yields the errors outcome. -/
theorem claim_C10_witness :
    handleDataErrors tokenCreateProj (none : Data) (some []) =
      HandledData.errors ⟨none, some []⟩ ∧
    getErrorsFromData (none : Data) = none :=
  ⟨(claim_C10_empty_array_truthy tokenCreateProj none rfl).2.1,
   (claim_C10_empty_array_truthy tokenCreateProj none rfl).2.2⟩

/-- Claim C4: if awaiting the factory throws, firePromise rejects with
that exception unchanged, bypassing normalization; otherwise the promise
rejects with the unified error exactly when the normalized outcome is an
errors outcome (the trailing resolve call is ignored because the promise
already settled), and resolves with the data object carrying the
projected payload exactly when it is a data outcome. -/
theorem claim_C4_firePromise {E T : Type} (mapFn : Data → T) :
    (∀ e : E, firePromise mapFn (Except.error e) =
        some (Except.error (Rejection.thrown e))) ∧
    (∀ (r : RawResult) (u : ApolloError),
        handleDataErrors mapFn r.data r.errors = HandledData.errors u →
        firePromise (E := E) mapFn (Except.ok r) =
          some (Except.error (Rejection.unified u))) ∧
    (∀ (r : RawResult) (d : T),
        handleDataErrors mapFn r.data r.errors = HandledData.data d →
        d = mapFn r.data ∧
        firePromise (E := E) mapFn (Except.ok r) = some (Except.ok (some d))) := by
  refine ⟨fun e => rfl, fun r u hu => ?_, fun r d hd => ?_⟩
  · rw [firePromise, firePromiseOps, hu]
    rfl
  · refine ⟨handleDataErrors_data_eq mapFn r.data r.errors d hd, ?_⟩
    rw [firePromise, firePromiseOps, hd]
    rfl

/-- Closed instance of claim C4: a thrown string rejects unchanged, an
empty payload with a transport error rejects with the unified error, and
a clean null payload resolves with the projected data. -/
theorem claim_C4_witness :
    firePromise tokenCreateProj (Except.error "net down") =
      some (Except.error (Rejection.thrown "net down")) ∧
    firePromise (E := String) tokenCreateProj
        (Except.ok ⟨none, some [⟨"boom"⟩]⟩) =
      some (Except.error (Rejection.unified ⟨none, some [⟨"boom"⟩]⟩)) ∧
    firePromise (E := String) tokenCreateProj (Except.ok ⟨none, none⟩) =
      some (Except.ok (some none)) :=
  ⟨(claim_C4_firePromise tokenCreateProj).1 "net down",
   (claim_C4_firePromise tokenCreateProj).2.1 ⟨none, some [⟨"boom"⟩]⟩
     ⟨none, some [⟨"boom"⟩]⟩ rfl,
   ((claim_C4_firePromise tokenCreateProj).2.2 ⟨none, none⟩ none rfl).2⟩

/-- Counterexample to claim C5: on the sign-in failure payload
(tokenCreate with a null token and one domain error, no transport errors)
the tokenCreate child is a non-null object, so the payload is not empty:
the normalizer returns the data outcome, the update hook sees a truthy
node and calls setAuthToken with the null token (overwriting the stored
token), and the promise resolves instead of rejecting. -/
theorem claim_C5_counterexample :
    (signIn (E := String) (some "OLD")
        (Except.ok ⟨some [⟨"tokenCreate",
          some ⟨some [⟨some "password", some "Invalid credentials"⟩], none⟩⟩],
          none⟩)).1 = none ∧
    (none : Option String) ≠ some "OLD" ∧
    (signIn (E := String) (some "OLD")
        (Except.ok ⟨some [⟨"tokenCreate",
          some ⟨some [⟨some "password", some "Invalid credentials"⟩], none⟩⟩],
          none⟩)).2 =
      some (Except.ok (some (some
        ⟨some [⟨some "password", some "Invalid credentials"⟩], none⟩))) :=
  ⟨rfl, by decide, rfl⟩

/-- Claim C5 as amended: when the sign-in mutation returns a payload whose
tokenCreate field is a non-null node with a null token and a non-empty
domain-error list, and there are no transport errors, the token store is
overwritten with the null token (setAuthToken is called) and the promise
resolves with the data outcome carrying that node; the domain errors are
not surfaced through the promise. -/
theorem claim_C5_amended (store : Option String) (es : List DomainError)
    (h : es ≠ []) :
    signIn (E := String) store
        (Except.ok ⟨some [⟨"tokenCreate", some ⟨some es, none⟩⟩], none⟩) =
      (none, some (Except.ok (some (some ⟨some es, none⟩)))) := by
  match es, h with
  | e0 :: rest, _ => rfl

/-- Closed instance of the amended claim C5: the spec scenario input,
starting from a store holding a previous token. -/
theorem claim_C5_witness :
    signIn (E := String) (some "OLD")
        (Except.ok ⟨some [⟨"tokenCreate",
          some ⟨some [⟨some "password", some "Invalid credentials"⟩], none⟩⟩],
          none⟩) =
      (none, some (Except.ok (some (some
        ⟨some [⟨some "password", some "Invalid credentials"⟩], none⟩)))) :=
  claim_C5_amended (some "OLD")
    [⟨some "password", some "Invalid credentials"⟩] (by decide)

/-- Claim C6: when the sign-in mutation succeeds (tokenCreate carries
token T123 and an empty domain-error list, no transport errors), the
token store afterwards holds T123 whatever it held before, and the
promise resolves with the data outcome carrying that payload. -/
theorem claim_C6_sign_in_success (store : Option String) :
    signIn (E := String) store
        (Except.ok ⟨some [⟨"tokenCreate", some ⟨some [], some "T123"⟩⟩], none⟩) =
      (some "T123", some (Except.ok (some (some ⟨some [], some "T123"⟩)))) := by
  rfl

/-- Counterexample to claim C7: the subscription handler keeps no
once-flag, so two successful emissions invoke onComplete twice, not at
most once. Concrete input: two null-payload results with no errors, with
onError and onComplete supplied. -/
theorem claim_C7_counterexample :
    (subscriptionRun (fun _ => (none : Option Node)) true true
        [Emission.result ⟨none, none⟩, Emission.result ⟨none, none⟩]).completes = 2 ∧
    ¬ ((subscriptionRun (fun _ => (none : Option Node)) true true
        [Emission.result ⟨none, none⟩, Emission.result ⟨none, none⟩]).completes ≤ 1) := by
  exact ⟨rfl, by decide⟩

/-- Claim C7 as amended: when onComplete is supplied, it is invoked once
after every successful onUpdate invocation — over any subscription
lifetime the number of onComplete calls equals the number of onUpdate
calls — rather than only after the first. -/
theorem claim_C7_amended (mapFn : Data → Option Node) (hoE : Bool)
    (ems : List Emission) :
    (subscriptionRun mapFn hoE true ems).completes =
      (subscriptionRun mapFn hoE true ems).updates.length := by
  induction ems with
  | nil => rfl
  | cons em rest ih =>
      rw [subscriptionRun]
      simp only [CallbackCalls.append, List.length_append]
      rw [ih]
      have hone : (handleEmission mapFn hoE true em).completes =
          (handleEmission mapFn hoE true em).updates.length := by
        cases em with
        | result r =>
            cases h : handleDataErrors mapFn r.data r.errors with
            | errors e => simp [handleEmission, h]
            | data d => simp [handleEmission, h]
        | failure e => simp [handleEmission]
      rw [hone]

/-- Claim C8: on every value-channel emission with onError supplied,
exactly one of onUpdate and onError is invoked — onUpdate with the
projected data when the normalized outcome is a data outcome, onError
with the unified error when it is an errors outcome — never both and
never neither. -/
theorem claim_C8_exactly_one (mapFn : Data → Option Node) (hoC : Bool)
    (r : RawResult) :
    ((handleEmission mapFn true hoC (Emission.result r)).updates.length +
      (handleEmission mapFn true hoC (Emission.result r)).errorsCalled.length = 1) ∧
    (∀ d, handleDataErrors mapFn r.data r.errors = HandledData.data d →
        (handleEmission mapFn true hoC (Emission.result r)).updates = [d] ∧
        (handleEmission mapFn true hoC (Emission.result r)).errorsCalled = []) ∧
    (∀ u, handleDataErrors mapFn r.data r.errors = HandledData.errors u →
        (handleEmission mapFn true hoC (Emission.result r)).updates = [] ∧
        (handleEmission mapFn true hoC (Emission.result r)).errorsCalled = [u]) := by
  refine ⟨?_, fun d hd => ?_, fun u hu => ?_⟩
  · cases h : handleDataErrors mapFn r.data r.errors with
    | errors e => simp [handleEmission, h]
    | data d => simp [handleEmission, h]
  · simp [handleEmission, hd]
  · simp [handleEmission, hu]

/-- Closed instance of claim C8: a clean null-payload result invokes
onUpdate once and onError not at all. -/
theorem claim_C8_witness :
    ((handleEmission tokenCreateProj true true
        (Emission.result ⟨none, none⟩)).updates.length +
      (handleEmission tokenCreateProj true true
        (Emission.result ⟨none, none⟩)).errorsCalled.length = 1) ∧
    (handleEmission tokenCreateProj true true
        (Emission.result ⟨none, none⟩)).updates = [none] ∧
    (handleEmission tokenCreateProj true true
        (Emission.result ⟨none, none⟩)).errorsCalled = [] :=
  ⟨(claim_C8_exactly_one tokenCreateProj true ⟨none, none⟩).1,
   (claim_C8_exactly_one tokenCreateProj true ⟨none, none⟩).2.1 none rfl⟩

/-- Claim C9: calling refetch with new variables first synchronously
delivers the cached result for those variables via onUpdate when one is
present (the normalized cache entry has a truthy data value), and the
returned promise resolves with the data object carrying the projection of
the fresh network result for those variables when that result normalizes
to a data outcome. -/
theorem claim_C9_refetch {V E : Type} (mapFn : Data → Option Node)
    (cache : V → Data) (network : Option V → Except E RawResult) (v : V)
    (d : Node)
    (hc : handleDataErrors mapFn (cache v) none = HandledData.data (some d))
    (r : RawResult) (hn : network (some v) = Except.ok r) (dn : Option Node)
    (hd : handleDataErrors mapFn r.data r.errors = HandledData.data dn) :
    refetch mapFn cache network (some v) =
      ([some d], some (Except.ok (some dn))) := by
  rw [refetch, hc, hn, firePromise, firePromiseOps, hd]
  rfl

/-- Closed instance of claim C9: a constant projection, a cached hit and
a clean network result; the cached value is delivered synchronously and
the promise resolves with the network projection. -/
theorem claim_C9_witness :
    refetch (V := Nat) (E := String) (fun _ => some ⟨none, some "N"⟩)
        (fun _ => none) (fun _ => Except.ok ⟨none, none⟩) (some 42) =
      ([some ⟨none, some "N"⟩],
        some (Except.ok (some (some ⟨none, some "N"⟩)))) :=
  claim_C9_refetch (fun _ => some ⟨none, some "N"⟩) (fun _ => none)
    (fun _ => Except.ok ⟨none, none⟩) 42 ⟨none, some "N"⟩ rfl
    ⟨none, none⟩ rfl (some ⟨none, some "N"⟩) rfl
